import Mathlib

/-!
Verification of the HashScope deposit/withdrawal reconciliation layer.

The definitions below are a shallow embedding of the backend source:
 * `app/blockchain/contracts.py` — chain gateway and transaction verifier,
 * `app/routers/users.py`        — notify / request endpoints,
 * `app/routers/api_keys.py`, `app/utils/api_keys.py`, `app/auth/api_key.py`
   — API-key issuance and authentication,
 * `app/models.py`               — relational rows (users, transactions).

Effectful RPC and database calls are modelled by passing their results
explicitly (`Except`/`Option` parameters, list-based table states).
-/

deriving instance DecidableEq for Except

namespace HashScope

/-- Python's `str.lower()` applied per character; the addresses compared in
the source are ASCII hex strings, for which lowering acts exactly on
`'A'..'Z'`. -/
def lowerChar (c : Char) : Char :=
  if 'A' ≤ c && c ≤ 'Z' then Char.ofNat (c.toNat + 32) else c

/-- Python's `str.lower()` on a whole string. -/
def pyLower (s : String) : String := ⟨s.data.map lowerChar⟩

/-- A log entry of a transaction receipt.  `eventName` records which event
signature the log's topics decode to (`""` if none); `user`, `amount`,
`recipient` are the decoded argument fields. -/
structure LogEntry where
  address : String
  eventName : String
  user : String
  amount : Nat
  recipient : String := ""
deriving DecidableEq

/-- A mined transaction receipt (`w3.eth.get_transaction_receipt`). -/
structure Receipt where
  status : Nat
  logs : List LogEntry
  blockNumber : Nat := 0
  gasUsed : Nat := 0
deriving DecidableEq

/-- Transaction data as returned by `w3.eth.get_transaction`. -/
structure TxData where
  fromAddr : String
  toAddr : Option String
  value : Nat
deriving DecidableEq

/-- The chain responses observed while verifying one transaction hash:
the receipt lookup and the transaction lookup, each either raising
(`.error msg`) or returning a possibly-absent value. -/
structure Chain where
  receiptLookup : Except String (Option Receipt)
  txLookup : Except String (Option TxData)
deriving DecidableEq

/-- Outcome dictionary of the verifier functions in `contracts.py`:
`ok user amount` embeds the success dict, `fail message` the failure dict. -/
inductive VerifyResult where
  | ok (user : String) (amount : Nat)
  | fail (message : String)
deriving DecidableEq

/-- Failure message of `verify_deposit_transaction`. -/
def noDepositMsg : String := "Transaction failed or no Deposit event found"

/-- `deposit_contract.events.Deposit().process_receipt(tx_receipt)`:
decodes every log emitted by the deposit contract whose topics match the
`Deposit` event signature. -/
def processReceiptDeposit (contractAddr : String) (r : Receipt) : List LogEntry :=
  r.logs.filter (fun l => l.address == contractAddr && l.eventName == "Deposit")

/-- The `for log in tx_receipt["logs"]` loop of `verify_deposit_transaction`:
at the first log whose address case-insensitively equals the deposit
contract it runs `process_receipt` over the whole receipt and returns the
first decoded event, if any; otherwise the loop falls through. -/
def depositLoopResult (contractAddr : String) (r : Receipt) : Option LogEntry :=
  if r.logs.any (fun l => pyLower l.address == pyLower contractAddr) then
    (processReceiptDeposit contractAddr r).head?
  else none

/-- `verify_deposit_transaction(tx_hash)` from `contracts.py`: checks the
receipt status, scans the logs for a `Deposit` event from the deposit
contract, and otherwise falls back to treating a plain transfer to the
contract address as a deposit. -/
def verify_deposit_transaction (contractAddr : String) (ch : Chain) : VerifyResult :=
  match ch.receiptLookup with
  | .error e => .fail e
  | .ok none => .fail noDepositMsg
  | .ok (some r) =>
    if r.status = 1 then
      match depositLoopResult contractAddr r with
      | some ev => .ok ev.user ev.amount
      | none =>
        match ch.txLookup with
        | .error e => .fail e
        | .ok none => .fail noDepositMsg
        | .ok (some tx) =>
          match tx.toAddr with
          | some t =>
            if pyLower t == pyLower contractAddr then .ok tx.fromAddr tx.value
            else .fail noDepositMsg
          | none => .fail noDepositMsg
    else .fail noDepositMsg

/-- Failure message of `verify_withdraw_transaction`. -/
def noWithdrawMsg : String := "Transaction failed or no Withdraw event found"

/-- `deposit_contract.events.Withdraw().process_receipt(tx_receipt)`. -/
def processReceiptWithdraw (contractAddr : String) (r : Receipt) : List LogEntry :=
  r.logs.filter (fun l => l.address == contractAddr && l.eventName == "Withdraw")

/-- The log-scanning loop of `verify_withdraw_transaction`. -/
def withdrawLoopResult (contractAddr : String) (r : Receipt) : Option LogEntry :=
  if r.logs.any (fun l => pyLower l.address == pyLower contractAddr) then
    (processReceiptWithdraw contractAddr r).head?
  else none

/-- `verify_withdraw_transaction(tx_hash)` from `contracts.py`: like the
deposit verifier but for the `Withdraw` event and with no plain-transfer
fallback. -/
def verify_withdraw_transaction (contractAddr : String) (ch : Chain) : VerifyResult :=
  match ch.receiptLookup with
  | .error e => .fail e
  | .ok none => .fail noWithdrawMsg
  | .ok (some r) =>
    if r.status = 1 then
      match withdrawLoopResult contractAddr r with
      | some ev => .ok ev.user ev.amount
      | none => .fail noWithdrawMsg
    else .fail noWithdrawMsg

/-- Failure message of `verify_usage_deduction_transaction`. -/
def noUsageMsg : String := "Transaction failed or no UsageDeduction event found"

/-- `deposit_contract.events.UsageDeduction().process_receipt(tx_receipt)`. -/
def processReceiptUsage (contractAddr : String) (r : Receipt) : List LogEntry :=
  r.logs.filter (fun l => l.address == contractAddr && l.eventName == "UsageDeduction")

/-- The log-scanning loop of `verify_usage_deduction_transaction`. -/
def usageLoopResult (contractAddr : String) (r : Receipt) : Option LogEntry :=
  if r.logs.any (fun l => pyLower l.address == pyLower contractAddr) then
    (processReceiptUsage contractAddr r).head?
  else none

/-- `verify_usage_deduction_transaction(tx_hash)` from `contracts.py`. -/
def verify_usage_deduction_transaction (contractAddr : String) (ch : Chain) : VerifyResult :=
  match ch.receiptLookup with
  | .error e => .fail e
  | .ok none => .fail noUsageMsg
  | .ok (some r) =>
    if r.status = 1 then
      match usageLoopResult contractAddr r with
      | some ev => .ok ev.user ev.amount
      | none => .fail noUsageMsg
    else .fail noUsageMsg

/-- `get_balance(address)` from `contracts.py`: the argument is the result
of the underlying contract call `getBalance(address).call()`, which may
raise; the function swallows every exception and returns 0. -/
def get_balance (call : Except String Nat) : Nat :=
  match call with
  | .ok b => b
  | .error _ => 0

/-- Response dict of `get_transaction_status`. -/
structure TxStatusResponse where
  status : String
  message : Option String := none
  blockNumber : Option Nat := none
  gasUsed : Option Nat := none
deriving DecidableEq

/-- `get_transaction_status(tx_hash)` from `contracts.py`: maps the receipt
lookup to `confirmed` / `failed` / `pending` / `error`. -/
def get_transaction_status (lookup : Except String (Option Receipt)) : TxStatusResponse :=
  match lookup with
  | .error e => { status := "error", message := some e }
  | .ok (some r) =>
      { status := if r.status = 1 then "confirmed" else "failed",
        blockNumber := some r.blockNumber, gasUsed := some r.gasUsed }
  | .ok none => { status := "pending" }

/-! ## Relational model (`app/models.py`) and the notify / request routes -/

/-- A row of the `users` table (`app/models.py`); `balance` defaults to 0
and, per the source comment, is kept only for reference. -/
structure DBUser where
  username : String
  email : String
  wallet_address : String
  balance : Int := 0
  is_admin : Bool := false
deriving DecidableEq

/-- A row of the `transactions` table (`app/models.py`), with the fields the
routers populate; `tx_hash` carries a unique constraint. -/
structure DBTransaction where
  user_wallet : String
  tx_hash : String
  amount : Nat
  tx_type : String
  status : String
deriving DecidableEq

/-- The relational store visible to the routers. -/
structure DB where
  users : List DBUser
  txs : List DBTransaction
deriving DecidableEq

/-- `db.query(User).filter(User.wallet_address == w).first()`. -/
def findUser (db : DB) (wallet : String) : Option DBUser :=
  db.users.find? (fun u => u.wallet_address == wallet)

/-- The recorded balance of a user row, if the user exists. -/
def userBalance (db : DB) (wallet : String) : Option Int :=
  (findUser db wallet).map (fun u => u.balance)

/-- Whether a transaction row with this hash exists — the unique constraint
on `transactions.tx_hash` makes a commit of a duplicate insert fail. -/
def txHashExists (db : DB) (h : String) : Bool :=
  db.txs.any (fun t => t.tx_hash == h)

/-- Whether inserting this user row violates one of the unique constraints
on `users` (wallet address, username, email). -/
def userConflict (db : DB) (u : DBUser) : Bool :=
  db.users.any (fun x =>
    x.wallet_address == u.wallet_address || x.username == u.username || x.email == u.email)

/-- The user row `notify_deposit_transaction` creates for an unknown
wallet: name and mail derived from the first 8 characters of the wallet,
balance left at its default 0. -/
def mkNewUser (wallet : String) : DBUser :=
  { username := "user_" ++ (wallet.take 8),
    email := "user_" ++ (wallet.take 8) ++ "@example.com",
    wallet_address := wallet }

/-- The response dict of the notify endpoints
(`TransactionStatusResponse`: a status string and a message). -/
structure NotifyResponse where
  status : String
  message : String
deriving DecidableEq

/-- Error message produced by a commit violating the `tx_hash` unique
constraint (surfaced through the `except` branch as `str(e)`). -/
def dupTxMsg : String := "UNIQUE constraint failed: transactions.tx_hash"

/-- Error message produced by a commit violating a `users` unique
constraint. -/
def dupUserMsg : String := "UNIQUE constraint failed: users"

/-- The record-and-commit tail of `notify_deposit_transaction`: inserts a
`confirmed` deposit row; a duplicate `tx_hash` makes the commit raise,
which the surrounding `except` turns into an `error` response with the
database unchanged. -/
def recordDepositTx (db : DB) (wallet txHash : String) (amt : Nat) : DB × NotifyResponse :=
  if txHashExists db txHash then
    (db, { status := "error", message := dupTxMsg })
  else
    let row : DBTransaction :=
      { user_wallet := wallet, tx_hash := txHash, amount := amt,
        tx_type := "deposit", status := "confirmed" }
    ({ db with txs := db.txs ++ [row] },
     { status := "success", message := "Deposit transaction verified and recorded" })

/-- `notify_deposit_transaction` (`POST /deposit/notify`,
`app/routers/users.py`): verifies the hash on chain, creates the user on
first sight, records a confirmed deposit transaction.  It never touches
`User.balance`. -/
def notify_deposit_transaction (contractAddr : String) (ch : Chain) (txHash : String)
    (db : DB) : DB × NotifyResponse :=
  match verify_deposit_transaction contractAddr ch with
  | .fail msg => (db, { status := "failed", message := msg })
  | .ok u amt =>
    match findUser db u with
    | some user => recordDepositTx db user.wallet_address txHash amt
    | none =>
      let nu := mkNewUser u
      if userConflict db nu then (db, { status := "error", message := dupUserMsg })
      else recordDepositTx { db with users := db.users ++ [nu] } nu.wallet_address txHash amt

/-- The record-and-commit tail of the withdraw / usage notify handlers:
same commit pattern as the deposit one, with the handler's transaction
type and success message. -/
def recordConfirmedTx (db : DB) (wallet txHash : String) (amt : Nat)
    (ty okMsg : String) : DB × NotifyResponse :=
  if txHashExists db txHash then
    (db, { status := "error", message := dupTxMsg })
  else
    let row : DBTransaction :=
      { user_wallet := wallet, tx_hash := txHash, amount := amt,
        tx_type := ty, status := "confirmed" }
    ({ db with txs := db.txs ++ [row] }, { status := "success", message := okMsg })

/-- Modelled from the spec: `get_current_admin_user` is imported by
`app/routers/users.py` from `app.auth.dependencies` but its definition is
absent from the sources.  Per the spec, "Withdrawal and usage-deduction
paths additionally require the caller to hold administrative privilege";
it is modelled as a dependency that fails with an authorization error
(HTTP 403) unless the caller's administrative flag is set. -/
def get_current_admin_user (caller : DBUser) : Except Nat DBUser :=
  if caller.is_admin then .ok caller else .error 403

/-- Outcome of a route whose dependencies may reject the request before
the handler body runs. -/
inductive EndpointOutcome where
  | ok (resp : NotifyResponse)
  | httpError (code : Nat) (detail : String)
deriving DecidableEq

/-- Handler body of `notify_withdraw_transaction` (`POST /withdraw/notify`):
verify, look the user up (no creation), record a confirmed withdraw row.
`User.balance` is never touched. -/
def notify_withdraw_handler (contractAddr : String) (ch : Chain) (txHash : String)
    (db : DB) : DB × NotifyResponse :=
  match verify_withdraw_transaction contractAddr ch with
  | .fail msg => (db, { status := "failed", message := msg })
  | .ok u amt =>
    match findUser db u with
    | none => (db, { status := "failed", message := "User not found" })
    | some user =>
        recordConfirmedTx db user.wallet_address txHash amt "withdraw"
          "Withdraw transaction verified and recorded"

/-- `notify_withdraw_transaction` with its `Depends(get_current_admin_user)`
dependency: the handler body runs only after the dependency succeeds. -/
def notify_withdraw_transaction (caller : DBUser) (contractAddr : String) (ch : Chain)
    (txHash : String) (db : DB) : DB × EndpointOutcome :=
  match get_current_admin_user caller with
  | .error code => (db, .httpError code "Not authorized")
  | .ok _ =>
    let r := notify_withdraw_handler contractAddr ch txHash db
    (r.1, .ok r.2)

/-- Handler body of `notify_usage_deduction_transaction` (`POST /usage/notify`). -/
def notify_usage_handler (contractAddr : String) (ch : Chain) (txHash : String)
    (db : DB) : DB × NotifyResponse :=
  match verify_usage_deduction_transaction contractAddr ch with
  | .fail msg => (db, { status := "failed", message := msg })
  | .ok u amt =>
    match findUser db u with
    | none => (db, { status := "failed", message := "User not found" })
    | some user =>
        recordConfirmedTx db user.wallet_address txHash amt "usage_deduction"
          "Usage deduction transaction verified and recorded"

/-- `notify_usage_deduction_transaction` with its admin dependency. -/
def notify_usage_deduction_transaction (caller : DBUser) (contractAddr : String)
    (ch : Chain) (txHash : String) (db : DB) : DB × EndpointOutcome :=
  match get_current_admin_user caller with
  | .error code => (db, .httpError code "Not authorized")
  | .ok _ =>
    let r := notify_usage_handler contractAddr ch txHash db
    (r.1, .ok r.2)

/-- Outcome of the request routes: success dict, an `HTTPException`, or an
uncaught database error (a commit violating a unique constraint has no
`except` around it in these handlers). -/
inductive ReqOutcome where
  | ok (message : String) (request_id : Nat)
  | httpError (code : Nat) (detail : String)
  | dbError (detail : String)
deriving DecidableEq

/-- `request_withdraw` (`POST /withdraw/request`): caller must request for
their own wallet, the on-chain balance must cover the amount, then a
reservation row is inserted with the literal `tx_hash` string
`"pending"`.  `balCall` is the chain response consumed by `get_balance`. -/
def request_withdraw (caller : DBUser) (reqWallet : String) (amount : Nat)
    (balCall : Except String Nat) (db : DB) : DB × ReqOutcome :=
  if pyLower caller.wallet_address ≠ pyLower reqWallet then
    (db, .httpError 403 "You can only request withdrawals for your own wallet")
  else if get_balance balCall < amount then
    (db, .httpError 400 "Insufficient balance")
  else if txHashExists db "pending" then
    (db, .dbError dupTxMsg)
  else
    let row : DBTransaction :=
      { user_wallet := caller.wallet_address, tx_hash := "pending",
        amount := amount, tx_type := "withdraw_request", status := "pending" }
    ({ db with txs := db.txs ++ [row] },
     .ok "Withdrawal request submitted successfully" (db.txs.length + 1))

/-- `deduct_for_usage` (`POST /usage/deduct`), behind the admin dependency:
balance check, user lookup, then a reservation row with the literal
`tx_hash` string `"pending"`.  The request's `recipient_address` field is
accepted but unused by the handler body, so it is not modelled. -/
def deduct_for_usage (caller : DBUser) (reqWallet : String) (amount : Nat)
    (balCall : Except String Nat) (db : DB) : DB × ReqOutcome :=
  match get_current_admin_user caller with
  | .error code => (db, .httpError code "Not authorized")
  | .ok _ =>
    if get_balance balCall < amount then
      (db, .httpError 400 "Insufficient balance")
    else
      match findUser db reqWallet with
      | none => (db, .httpError 404 "User not found")
      | some user =>
        if txHashExists db "pending" then
          (db, .dbError dupTxMsg)
        else
          let row : DBTransaction :=
            { user_wallet := user.wallet_address, tx_hash := "pending",
              amount := amount, tx_type := "usage_request", status := "pending" }
          ({ db with txs := db.txs ++ [row] },
           .ok "Usage deduction request submitted successfully" (db.txs.length + 1))

/-! ## API keys (`app/utils/api_keys.py`, `app/routers/api_keys.py`,
`app/auth/api_key.py`)

The two hash schemes are abstracted as function parameters: `pcHash` is
`passlib`'s bcrypt `pwd_context.hash` (salt folded in) used at issuance,
`sha256Hex` is `hashlib.sha256(...).hexdigest()` used at authentication.
Claims are stated under the format facts that hold of the real functions:
a passlib bcrypt hash starts with the character `'$'` (the `$2b$` prefix)
while a sha256 hexdigest consists of hexadecimal digits only. -/

/-- A row of the `api_keys` table, with the columns the claim touches. -/
structure APIKeyRow where
  key_id : String
  secret_key_hash : String
  is_active : Bool := true
  call_count : Nat := 0
deriving DecidableEq

/-- `create_api_key` (`POST /api-keys/`, `app/routers/api_keys.py`):
requires a positive token balance, then persists a row whose
`secret_key_hash` is `pwd_context.hash(secret_key)` (bcrypt, from
`generate_api_key_pair` in `app/utils/api_keys.py`); `key_id` and `secret`
stand for the random draws of `generate_api_key_pair`. -/
def create_api_key (pcHash : String → String) (token_balance : Int)
    (key_id secret : String) (keys : List APIKeyRow) : Option (APIKeyRow × List APIKeyRow) :=
  if token_balance ≤ 0 then none
  else
    let row : APIKeyRow := { key_id := key_id, secret_key_hash := pcHash secret }
    some (row, keys ++ [row])

/-- Outcome of `verify_api_key` in `app/auth/api_key.py`. -/
inductive AuthResult where
  | ok (k : APIKeyRow)
  | unauthorized (detail : String)
deriving DecidableEq

/-- `verify_api_key` from `app/auth/api_key.py` (the authentication
dependency used by the data routes): looks the row up by `key_id`,
compares the stored hash against `hashlib.sha256(secret).hexdigest()`
with an ordinary string comparison, checks `is_active`, then increments
`call_count`. -/
def auth_verify_api_key (sha256Hex : String → String) (keys : List APIKeyRow)
    (api_key_id api_key_secret : String) : AuthResult × List APIKeyRow :=
  if api_key_id == "" || api_key_secret == "" then
    (.unauthorized "API 키 ID와 Secret이 모두 필요합니다", keys)
  else
    match keys.find? (fun k => k.key_id == api_key_id) with
    | none => (.unauthorized "유효하지 않은 API 키입니다", keys)
    | some k =>
      if k.secret_key_hash ≠ sha256Hex api_key_secret then
        (.unauthorized "유효하지 않은 API 키 Secret입니다", keys)
      else if k.is_active = false then
        (.unauthorized "비활성화된 API 키입니다", keys)
      else
        let k2 := { k with call_count := k.call_count + 1 }
        (.ok k2, keys.map (fun x => if x.key_id == api_key_id then k2 else x))

/-! ## Unit conversion (`wei_to_hsk` / `hsk_to_wei`, `contracts.py`)

The Python conversions run in IEEE-754 binary64.  They are embedded with
an exact model of nonnegative binary64 values (`m * 2^k`, normalised
mantissa) and round-to-nearest-ties-to-even arithmetic; overflow and
subnormals cannot arise at the magnitudes involved. -/

/-- Round `p / q` (with `q > 0`) to the nearest integer, ties to even —
the rounding step of IEEE-754 round-to-nearest. -/
def roundNE (p q : Nat) : Nat :=
  let d := p / q
  let r := p % q
  if 2 * r < q then d
  else if q < 2 * r then d + 1
  else if d % 2 = 0 then d else d + 1

/-- A nonnegative binary64 value `m * 2^k`, with `2^52 ≤ m < 2^53`
(normalised) or `m = 0`. -/
structure Dbl where
  m : Nat
  k : Int
deriving DecidableEq

/-- Renormalise a mantissa that rounding pushed up to `2^53`. -/
def mkDbl (m : Nat) (k : Int) : Dbl :=
  if m = 2 ^ 53 then { m := 2 ^ 52, k := k + 1 } else { m := m, k := k }

/-- `⌊log2⌋` with explicit fuel (structural recursion, so proofs can
evaluate it). -/
def log2fuel : Nat → Nat → Nat
  | 0, _ => 0
  | fuel + 1, n => if 2 ≤ n then log2fuel fuel (n / 2) + 1 else 0

/-- `⌊log2 n⌋` for `n ≥ 1`. -/
def nlog2 (n : Nat) : Nat := log2fuel n n

/-- The binary64 value nearest to a natural number (Python `float(n)`):
exact below `2^53`, rounded to the nearest representable above. -/
def dOfNat (n : Nat) : Dbl :=
  if n = 0 then { m := 0, k := 0 }
  else
    let e := nlog2 n
    if e ≤ 52 then { m := n * 2 ^ (52 - e), k := (e : Int) - 52 }
    else mkDbl (roundNE n (2 ^ (e - 52))) ((e : Int) - 52)

/-- binary64 division, round to nearest, for nonnegative operands
(`b ≠ 0`). -/
def dDiv (a b : Dbl) : Dbl :=
  if a.m = 0 then { m := 0, k := 0 }
  else if b.m ≤ a.m then mkDbl (roundNE (a.m * 2 ^ 52) b.m) (a.k - b.k - 52)
  else mkDbl (roundNE (a.m * 2 ^ 53) b.m) (a.k - b.k - 53)

/-- binary64 multiplication, round to nearest, for nonnegative operands. -/
def dMul (a b : Dbl) : Dbl :=
  if a.m = 0 || b.m = 0 then { m := 0, k := 0 }
  else if a.m * b.m < 2 ^ 105 then mkDbl (roundNE (a.m * b.m) (2 ^ 52)) (a.k + b.k + 52)
  else mkDbl (roundNE (a.m * b.m) (2 ^ 53)) (a.k + b.k + 53)

/-- Python `int(x)` on a nonnegative double: truncation. -/
def dTrunc (d : Dbl) : Nat :=
  match d.k with
  | .ofNat e => d.m * 2 ^ e
  | .negSucc e => d.m / 2 ^ (e + 1)

/-- `wei_to_hsk(wei_amount)` from `contracts.py`:
`float(wei_amount) / 10**18` computed in binary64. -/
def wei_to_hsk (wei_amount : Nat) : Dbl :=
  dDiv (dOfNat wei_amount) (dOfNat (10 ^ 18))

/-- `hsk_to_wei(hsk_amount)` from `contracts.py`:
`int(hsk_amount * 10**18)` computed in binary64. -/
def hsk_to_wei (hsk_amount : Dbl) : Nat :=
  dTrunc (dMul hsk_amount (dOfNat (10 ^ 18)))

/-! ## Concrete fixtures used by counterexamples and witnesses -/

/-- A successful receipt carrying one `Deposit` event emitted by the
deposit contract `"0xdep"`: user `"0xaaa"`, amount 5. -/
def rcptA : Receipt :=
  { status := 1,
    logs := [{ address := "0xdep", eventName := "Deposit",
               user := "0xaaa", amount := 5 }] }

/-- Chain responses: receipt `rcptA`, transaction lookup absent. -/
def chainEvUserA : Chain :=
  { receiptLookup := Except.ok (some rcptA), txLookup := Except.ok none }

/-- Chain responses for a transaction sent to `"0xother"` whose receipt
nevertheless carries a `Deposit` event emitted by the deposit contract
(an internal call). -/
def chainInternalCall : Chain :=
  { receiptLookup := Except.ok (some rcptA),
    txLookup := Except.ok (some { fromAddr := "0xaaa", toAddr := some "0xother", value := 0 }) }

/-- The user row for wallet `"0xaaa"` (not an administrator). -/
def userA : DBUser :=
  { username := "user_0xaaa", email := "user_0xaaa@example.com", wallet_address := "0xaaa" }

/-- An administrator row. -/
def adminA : DBUser :=
  { username := "admin", email := "admin@example.com", wallet_address := "0xadm",
    is_admin := true }

/-- Store state in which hash `"0xabc"` already has a confirmed (terminal)
ledger entry for user `"0xaaa"`. -/
def db0 : DB :=
  { users := [userA],
    txs := [{ user_wallet := "0xaaa", tx_hash := "0xabc", amount := 5,
              tx_type := "deposit", status := "confirmed" }] }

/-- Store state with user `"0xaaa"` and no transactions. -/
def db1 : DB := { users := [userA], txs := [] }

/-- Store state already holding a reservation row with `tx_hash`
`"pending"`. -/
def dbPend : DB :=
  { users := [userA],
    txs := [{ user_wallet := "0xaaa", tx_hash := "pending", amount := 5,
              tx_type := "withdraw_request", status := "pending" }] }

/-! ## Claim C5 — `get_balance` error behaviour -/

/-- Claim C5 counterexample: when the RPC endpoint is unreachable the
contract call raises, yet `get_balance` does not fail with a
`ChainUnavailable` error — no such error exists in the code — it returns
the normal value 0. -/
theorem c5_counterexample :
    get_balance (Except.error "ConnectionError: node unreachable") = 0 := rfl

/-- Claim C5 (amended): `get_balance` returns 0 on every read error,
including an unreachable RPC endpoint, and the read value otherwise; it
never raises. -/
theorem c5_get_balance_total :
    (∀ e : String, get_balance (Except.error e) = 0) ∧
    (∀ b : Nat, get_balance (Except.ok b) = b) :=
  ⟨fun _ => rfl, fun _ => rfl⟩

/-! ## Claim C6 — absent receipt is `pending` -/

/-- Claim C6: an absent receipt (the not-yet-mined lookup outcome) is
reported by `get_transaction_status` as `pending`, never as `failed` and
never as an error outcome. -/
theorem c6_absent_receipt_reports_pending :
    (get_transaction_status (Except.ok none)).status = "pending" ∧
    (get_transaction_status (Except.ok none)).status ≠ "failed" ∧
    (get_transaction_status (Except.ok none)).status ≠ "error" := by
  refine ⟨rfl, by decide, by decide⟩

/-! ## Claim C9 — unit conversion -/

/-- Claim C9 counterexample: the wei→HSK→wei roundtrip is not exact
integer arithmetic: `10^18 + 1` wei converts (through binary64 floats) to
`1.0` HSK and back to `10^18` wei, losing 1 wei. -/
theorem c9_counterexample :
    hsk_to_wei (wei_to_hsk (10 ^ 18 + 1)) = 10 ^ 18 ∧ (10 ^ 18 : Nat) ≠ 10 ^ 18 + 1 := by
  exact ⟨by decide, by decide⟩

/-- Claim C9 (amended): unit conversion runs through binary64 floating
point, not exact integer arithmetic; the roundtrip is exact on
representative whole-token amounts but already lossy at `10^18 + 1` wei. -/
theorem c9_conversion_is_binary64 :
    hsk_to_wei (wei_to_hsk (5 * 10 ^ 18)) = 5 * 10 ^ 18 ∧
    hsk_to_wei (wei_to_hsk (10 ^ 18)) = 10 ^ 18 ∧
    hsk_to_wei (wei_to_hsk (10 ^ 18 + 1)) ≠ 10 ^ 18 + 1 := by
  exact ⟨by decide, by decide, by decide⟩

/-! ## Claim C3 — no actor / amount check in verification -/

/-- Claim C3 counterexample: with expected wallet `"0xbbb"`, verification
of a transaction whose `Deposit` event names user `"0xaaa"` does not fail:
it succeeds and returns the event's user, although `"0xaaa"` does not
case-insensitively equal `"0xbbb"`.  The notify request
(`TransactionNotify`) carries no expected wallet or amount for the
verifier to compare against. -/
theorem c3_counterexample :
    verify_deposit_transaction "0xdep" chainEvUserA = .ok "0xaaa" 5 ∧
    pyLower "0xaaa" ≠ pyLower "0xbbb" := by
  exact ⟨by decide, by decide⟩

/-- Claim C3 (amended): the verifier receives only the transaction hash —
no expected wallet or amount exists in its interface — and on a successful
receipt whose logs decode a `Deposit` event from the deposit contract it
returns that event's user and amount without any comparison. -/
theorem c3_verifier_returns_event_fields
    (c : String) (r : Receipt) (txl : Except String (Option TxData)) (ev : LogEntry)
    (hst : r.status = 1)
    (hloop : depositLoopResult c r = some ev) :
    verify_deposit_transaction c { receiptLookup := Except.ok (some r), txLookup := txl } =
      .ok ev.user ev.amount := by
  unfold verify_deposit_transaction
  simp [hst, hloop]

/-- Witness for `c3_verifier_returns_event_fields` at the concrete
fixture. -/
theorem c3_verifier_returns_event_fields_witness :
    verify_deposit_transaction "0xdep"
      { receiptLookup := Except.ok (some rcptA), txLookup := Except.ok none } =
      .ok "0xaaa" 5 :=
  c3_verifier_returns_event_fields "0xdep" rcptA (Except.ok none)
    { address := "0xdep", eventName := "Deposit", user := "0xaaa", amount := 5 }
    rfl (by decide)

/-! ## Claim C4 — destination check -/

/-- Claim C4 counterexample: a transaction whose recipient is `"0xother"`,
not the configured deposit contract `"0xdep"`, still verifies successfully
because its receipt carries a `Deposit` event emitted by the deposit
contract: the recipient address is never compared on the event path. -/
theorem c4_counterexample :
    verify_deposit_transaction "0xdep" chainInternalCall = .ok "0xaaa" 5 ∧
    pyLower "0xother" ≠ pyLower "0xdep" := by
  exact ⟨by decide, by decide⟩

/-- Claim C4 (amended): the recipient address is checked only on the
plain-transfer fallback path: when no `Deposit` event decodes from the
receipt's logs, a transaction whose recipient differs case-insensitively
from the deposit contract fails verification. -/
theorem c4_fallback_checks_destination
    (c : String) (r : Receipt) (tx : TxData) (t : String)
    (hloop : depositLoopResult c r = none)
    (hto : tx.toAddr = some t)
    (hne : pyLower t ≠ pyLower c) :
    verify_deposit_transaction c
      { receiptLookup := Except.ok (some r), txLookup := Except.ok (some tx) } =
      .fail noDepositMsg := by
  unfold verify_deposit_transaction
  by_cases hst : r.status = 1
  · simp [hst, hloop, hto, hne]
  · simp [hst]

/-- Witness for `c4_fallback_checks_destination` at a concrete receipt
with no logs and a transaction sent elsewhere. -/
theorem c4_fallback_checks_destination_witness :
    verify_deposit_transaction "0xdep"
      { receiptLookup := Except.ok (some { status := 1, logs := [] }),
        txLookup := Except.ok (some { fromAddr := "0xaaa", toAddr := some "0xother", value := 7 }) } =
      .fail noDepositMsg :=
  c4_fallback_checks_destination "0xdep" { status := 1, logs := [] }
    { fromAddr := "0xaaa", toAddr := some "0xother", value := 7 } "0xother"
    (by decide) rfl (by decide)

/-! ## Claim C7 — admin requirement on withdraw / usage notify -/

/-- Claim C7: a withdraw or usage-deduction notify request by a caller
without the administrative flag fails with an authorization error before
the handler body runs: the verification outcome is never consulted, no
transaction row is persisted and no balance changes.  (The admin
dependency is modelled from the spec, see `get_current_admin_user`.) -/
theorem c7_non_admin_notify_rejected
    (caller : DBUser) (c : String) (ch : Chain) (h : String) (db : DB)
    (hna : caller.is_admin = false) :
    notify_withdraw_transaction caller c ch h db = (db, .httpError 403 "Not authorized") ∧
    notify_usage_deduction_transaction caller c ch h db = (db, .httpError 403 "Not authorized") := by
  unfold notify_withdraw_transaction notify_usage_deduction_transaction get_current_admin_user
  rw [hna]
  exact ⟨rfl, rfl⟩

/-- Witness for `c7_non_admin_notify_rejected`: the non-admin user `userA`
is rejected on both routes even though the chain would verify. -/
theorem c7_non_admin_notify_rejected_witness :
    notify_withdraw_transaction userA "0xdep" chainEvUserA "0xabc" db0 =
      (db0, .httpError 403 "Not authorized") ∧
    notify_usage_deduction_transaction userA "0xdep" chainEvUserA "0xabc" db0 =
      (db0, .httpError 403 "Not authorized") :=
  c7_non_admin_notify_rejected userA "0xdep" chainEvUserA "0xabc" db0 rfl

/-! ## Claim C1 — no idempotence gate on repeated notify -/

/-- Claim C1 counterexample: hash `"0xabc"` already has a confirmed
(terminal) ledger entry in `db0`, yet a second `/deposit/notify` call for
it returns status `"error"` (the duplicate-insert database failure), not a
success or an already-processed outcome. -/
theorem c1_counterexample :
    (notify_deposit_transaction "0xdep" chainEvUserA "0xabc" db0).2.status = "error" ∧
    (notify_deposit_transaction "0xdep" chainEvUserA "0xabc" db0).2.status ≠ "success" := by
  exact ⟨by decide, by decide⟩

/-- Claim C1 (amended): there is no idempotence gate.  A repeated notify
for a hash that already has a ledger entry re-runs on-chain verification;
when verification succeeds for a known user the duplicate insert violates
the `tx_hash` unique constraint, so the call returns status `"error"` with
the database message and leaves the store unchanged, and when the re-run
verification fails the call returns status `"failed"` with the verifier's
message — in neither case the originally recorded outcome. -/
theorem c1_duplicate_notify_errors
    (c : String) (ch : Chain) (h : String) (db : DB)
    (hdup : txHashExists db h = true) :
    (∀ u a user, verify_deposit_transaction c ch = .ok u a → findUser db u = some user →
       notify_deposit_transaction c ch h db = (db, { status := "error", message := dupTxMsg })) ∧
    (∀ msg, verify_deposit_transaction c ch = .fail msg →
       notify_deposit_transaction c ch h db = (db, { status := "failed", message := msg })) := by
  constructor
  · intro u a user hver huser
    unfold notify_deposit_transaction
    rw [hver]
    dsimp only
    rw [huser]
    unfold recordDepositTx
    rw [hdup]
    simp
  · intro msg hver
    unfold notify_deposit_transaction
    rw [hver]

/-- Witness for `c1_duplicate_notify_errors`: the duplicate notify on
`db0` returns the database error with the store unchanged. -/
theorem c1_duplicate_notify_errors_witness :
    notify_deposit_transaction "0xdep" chainEvUserA "0xabc" db0 =
      (db0, { status := "error", message := dupTxMsg }) :=
  (c1_duplicate_notify_errors "0xdep" chainEvUserA "0xabc" db0 (by decide)).1
    "0xaaa" 5 userA (by decide) (by decide)

/-! ## Claim C2 — no balance credit on reconciliation -/

/-- Claim C2 counterexample: a fresh deposit notification for user
`"0xaaa"` (pre-balance 0) verifies on chain with amount 5 and is answered
with status `"success"`, yet the post-notify balance is still 0, not
0 + 5: the credit never happens. -/
theorem c2_counterexample :
    (notify_deposit_transaction "0xdep" chainEvUserA "0xabc" db1).2.status = "success" ∧
    userBalance db1 "0xaaa" = some 0 ∧
    userBalance (notify_deposit_transaction "0xdep" chainEvUserA "0xabc" db1).1 "0xaaa" = some 0 ∧
    ¬ ((0 : Int) = 0 + 5) := by
  exact ⟨by decide, by decide, by decide, by decide⟩

/-- The commit tail of the deposit notify never changes the users table. -/
theorem recordDepositTx_users_eq (db : DB) (w h : String) (a : Nat) :
    (recordDepositTx db w h a).1.users = db.users := by
  unfold recordDepositTx
  by_cases hd : txHashExists db h = true
  · rw [if_pos hd]
  · rw [if_neg hd]

/-- `userBalance` reads only the users table. -/
theorem userBalance_eq_of_users_eq (db db' : DB) (w : String) (h : db'.users = db.users) :
    userBalance db' w = userBalance db w := by
  unfold userBalance findUser
  rw [h]

/-- Appending one user row leaves every other balance unchanged and gives
the new row its own balance. -/
theorem userBalance_append (db : DB) (nu : DBUser) (w : String) :
    userBalance { db with users := db.users ++ [nu] } w = userBalance db w ∨
      (userBalance db w = none ∧
        userBalance { db with users := db.users ++ [nu] } w = some nu.balance) := by
  unfold userBalance findUser
  rw [List.find?_append]
  cases hf : db.users.find? (fun u => u.wallet_address == w) with
  | some u => left; rfl
  | none =>
    by_cases hw : (nu.wallet_address == w) = true
    · right
      exact ⟨rfl, by simp [List.find?, hw]⟩
    · left
      simp [List.find?, hw]

/-- Claim C2 (amended): on successful verification `/deposit/notify`
persists a confirmed transaction row carrying the verified amount, but
performs no balance write at all: every pre-existing user's recorded
balance is unchanged, and a user created by the call starts at the default
balance 0. -/
theorem c2_notify_never_writes_balance (c : String) (ch : Chain) (h : String) (db : DB) :
    (∀ w, userBalance (notify_deposit_transaction c ch h db).1 w = userBalance db w ∨
       (userBalance db w = none ∧
         userBalance (notify_deposit_transaction c ch h db).1 w = some 0)) ∧
    ((notify_deposit_transaction c ch h db).2.status = "success" →
       ∃ u a w, verify_deposit_transaction c ch = .ok u a ∧
         (notify_deposit_transaction c ch h db).1.txs =
           db.txs ++ [{ user_wallet := w, tx_hash := h, amount := a,
                        tx_type := "deposit", status := "confirmed" }]) := by
  unfold notify_deposit_transaction
  cases hver : verify_deposit_transaction c ch with
  | fail msg =>
    dsimp only
    refine ⟨fun w => Or.inl rfl, fun hs => by simp at hs⟩
  | ok u a =>
    dsimp only
    cases huser : findUser db u with
    | some user =>
      dsimp only
      constructor
      · intro w
        exact Or.inl
          (userBalance_eq_of_users_eq db _ w (recordDepositTx_users_eq db user.wallet_address h a))
      · intro hs
        unfold recordDepositTx at hs ⊢
        by_cases hd : txHashExists db h = true
        · rw [if_pos hd] at hs; simp at hs
        · rw [if_neg hd] at hs ⊢
          exact ⟨u, a, user.wallet_address, rfl, rfl⟩
    | none =>
      dsimp only
      by_cases hc : userConflict db (mkNewUser u) = true
      · rw [if_pos hc]
        refine ⟨fun w => Or.inl rfl, fun hs => by simp at hs⟩
      · rw [if_neg hc]
        constructor
        · intro w
          have h1 : userBalance
              (recordDepositTx { db with users := db.users ++ [mkNewUser u] }
                (mkNewUser u).wallet_address h a).1 w =
              userBalance { db with users := db.users ++ [mkNewUser u] } w :=
            userBalance_eq_of_users_eq _ _ w
              (recordDepositTx_users_eq { db with users := db.users ++ [mkNewUser u] } _ h a)
          rw [h1]
          simpa [mkNewUser] using userBalance_append db (mkNewUser u) w
        · intro hs
          unfold recordDepositTx at hs ⊢
          by_cases hd : txHashExists { db with users := db.users ++ [mkNewUser u] } h = true
          · rw [if_pos hd] at hs; simp at hs
          · rw [if_neg hd] at hs ⊢
            exact ⟨u, a, (mkNewUser u).wallet_address, rfl, rfl⟩

/-! ## Claim C8 — API-key issuance / authentication round trip -/

/-- A lowercase hexadecimal character, the alphabet of
`hashlib.sha256(...).hexdigest()`. -/
def isHexChar (ch : Char) : Bool :=
  ch.isDigit || ('a' ≤ ch && ch ≤ 'f')

/-- A string whose first character is `'$'` (every passlib bcrypt hash
starts with the `$2b$` prefix) never equals a string consisting of
hexadecimal digits only (every sha256 hexdigest). -/
theorem dollar_prefixed_ne_hex (x y : String)
    (hx : x.data.head? = some '$')
    (hy : ∀ ch ∈ y.data, isHexChar ch = true) : x ≠ y := by
  intro he
  subst he
  cases hd : x.data with
  | nil => rw [hd] at hx; cases hx
  | cons a t =>
    rw [hd] at hx
    injection hx with hx1
    subst hx1
    have h2 := hy '$' (by rw [hd]; exact List.mem_cons_self _ _)
    exact absurd h2 (by decide)

/-- Claim C8 (code bug): issuance (`create_api_key`, backed by
`generate_api_key_pair`) persists a bcrypt hash of the secret, while the
authentication dependency (`verify_api_key` in `app/auth/api_key.py`)
compares the stored value against a sha256 hexdigest of the presented
secret with an ordinary string comparison.  Hence a key created by the
issuance route is rejected when authenticating with its own plaintext
secret: the round trip never succeeds.  Stated for any pair of hash
functions with the format properties of the real ones (bcrypt hashes
start with `'$'`, sha256 hexdigests are hex characters only). -/
theorem c8_issued_key_never_authenticates
    (pcHash sha256Hex : String → String)
    (hbc : ∀ s, (pcHash s).data.head? = some '$')
    (hsha : ∀ s, ∀ ch ∈ (sha256Hex s).data, isHexChar ch = true)
    (tb : Int) (key_id secret : String) (row : APIKeyRow) (keys keys2 : List APIKeyRow)
    (hkid : (key_id == "") = false) (hsec : (secret == "") = false)
    (hfresh : keys.find? (fun k => k.key_id == key_id) = none)
    (hcreate : create_api_key pcHash tb key_id secret keys = some (row, keys2)) :
    (auth_verify_api_key sha256Hex keys2 key_id secret).1 =
      .unauthorized "유효하지 않은 API 키 Secret입니다" := by
  have hne : pcHash secret ≠ sha256Hex secret :=
    dollar_prefixed_ne_hex _ _ (hbc secret) (hsha secret)
  unfold create_api_key at hcreate
  by_cases htb : tb ≤ 0
  · rw [if_pos htb] at hcreate; cases hcreate
  · rw [if_neg htb] at hcreate
    injection hcreate with hpair
    have hkeys : keys2 = keys ++ [{ key_id := key_id, secret_key_hash := pcHash secret }] :=
      (congrArg Prod.snd hpair).symm
    subst hkeys
    unfold auth_verify_api_key
    have hcond : (key_id == "" || secret == "") = false := by rw [hkid, hsec]; rfl
    rw [hcond, List.find?_append, hfresh]
    simp [List.find?, hne]

/-- Witness for `c8_issued_key_never_authenticates` with concrete stand-in
hash functions satisfying the format facts: the freshly issued key `"k1"`
with secret `"s1"` is rejected by the authentication dependency. -/
theorem c8_issued_key_never_authenticates_witness :
    (auth_verify_api_key (fun _ => "ab")
      [{ key_id := "k1", secret_key_hash := "$2b$12$x" }] "k1" "s1").1 =
      .unauthorized "유효하지 않은 API 키 Secret입니다" :=
  c8_issued_key_never_authenticates (fun _ => "$2b$12$x") (fun _ => "ab")
    (fun _ => rfl)
    (fun _ ch hch => by
      have hab : ("ab").data = ['a', 'b'] := rfl
      rw [hab] at hch
      simp only [List.mem_cons, List.mem_singleton, List.not_mem_nil, or_false] at hch
      rcases hch with rfl | rfl <;> decide)
    1 "k1" "s1" { key_id := "k1", secret_key_hash := "$2b$12$x" }
    [] [{ key_id := "k1", secret_key_hash := "$2b$12$x" }]
    (by decide) (by decide) rfl (by decide)

/-! ## Claim C10 — the `"pending"` reservation hash collides -/

/-- The reservation row inserted by `request_withdraw`. -/
def withdrawReqRow (caller : DBUser) (amount : Nat) : DBTransaction :=
  { user_wallet := caller.wallet_address, tx_hash := "pending",
    amount := amount, tx_type := "withdraw_request", status := "pending" }

/-- The reservation row inserted by `deduct_for_usage`. -/
def usageReqRow (user : DBUser) (amount : Nat) : DBTransaction :=
  { user_wallet := user.wallet_address, tx_hash := "pending",
    amount := amount, tx_type := "usage_request", status := "pending" }

/-- Claim C10: both request routes persist their reservation row with the
literal transaction-hash string `"pending"`; the unique constraint on
`tx_hash` therefore admits at most one such row system-wide, so once the
store holds one, every further withdrawal or usage-deduction request that
passes its pre-checks fails at the database commit (an uncaught error)
with the store unchanged, instead of being recorded. -/
theorem c10_pending_reservation_collides
    (caller admin user : DBUser) (w : String) (amount amount2 : Nat)
    (bal bal2 : Except String Nat) (db : DB) :
    (txHashExists db "pending" = false → ¬ get_balance bal < amount →
       request_withdraw caller caller.wallet_address amount bal db =
         ({ db with txs := db.txs ++ [withdrawReqRow caller amount] },
          .ok "Withdrawal request submitted successfully" (db.txs.length + 1))) ∧
    (txHashExists db "pending" = false → admin.is_admin = true →
       ¬ get_balance bal2 < amount2 → findUser db w = some user →
       deduct_for_usage admin w amount2 bal2 db =
         ({ db with txs := db.txs ++ [usageReqRow user amount2] },
          .ok "Usage deduction request submitted successfully" (db.txs.length + 1))) ∧
    (txHashExists db "pending" = true →
       (¬ get_balance bal < amount →
          request_withdraw caller caller.wallet_address amount bal db = (db, .dbError dupTxMsg)) ∧
       (admin.is_admin = true → ¬ get_balance bal2 < amount2 → findUser db w = some user →
          deduct_for_usage admin w amount2 bal2 db = (db, .dbError dupTxMsg))) := by
  have hself : ¬ pyLower caller.wallet_address ≠ pyLower caller.wallet_address :=
    fun hc => hc rfl
  have hadm_ok : ∀ u : DBUser, u.is_admin = true → get_current_admin_user u = Except.ok u := by
    intro u h
    unfold get_current_admin_user
    rw [h]
    rfl
  refine ⟨?_, ?_, ?_⟩
  · intro hp hb
    have hpn : ¬ txHashExists db "pending" = true := by rw [hp]; exact Bool.false_ne_true
    unfold request_withdraw
    rw [if_neg hself, if_neg hb, if_neg hpn]
    rfl
  · intro hp hadm hb hu
    have hpn : ¬ txHashExists db "pending" = true := by rw [hp]; exact Bool.false_ne_true
    unfold deduct_for_usage
    rw [hadm_ok admin hadm]
    dsimp only
    rw [if_neg hb, hu]
    dsimp only
    rw [if_neg hpn]
    rfl
  · intro hp
    constructor
    · intro hb
      unfold request_withdraw
      rw [if_neg hself, if_neg hb, if_pos hp]
    · intro hadm hb hu
      unfold deduct_for_usage
      rw [hadm_ok admin hadm]
      dsimp only
      rw [if_neg hb, hu]
      dsimp only
      rw [if_pos hp]

/-- Witness for `c10_pending_reservation_collides`: with the reservation
row already present in `dbPend`, both a further withdrawal request and a
further usage-deduction request fail at the commit. -/
theorem c10_pending_reservation_collides_witness :
    request_withdraw userA userA.wallet_address 5 (Except.ok 10) dbPend =
      (dbPend, .dbError dupTxMsg) ∧
    deduct_for_usage adminA "0xaaa" 3 (Except.ok 10) dbPend =
      (dbPend, .dbError dupTxMsg) := by
  have h := (c10_pending_reservation_collides userA adminA userA "0xaaa" 5 3
    (Except.ok 10) (Except.ok 10) dbPend).2.2 (by decide)
  exact ⟨h.1 (by decide), h.2 rfl (by decide) (by decide)⟩

/-- Witness for `c2_notify_never_writes_balance`: at the concrete fixture
the success branch is reached and the confirmed row is appended. -/
theorem c2_notify_never_writes_balance_witness :
    ∃ u a w, verify_deposit_transaction "0xdep" chainEvUserA = .ok u a ∧
      (notify_deposit_transaction "0xdep" chainEvUserA "0xabc" db1).1.txs =
        db1.txs ++ [{ user_wallet := w, tx_hash := "0xabc", amount := a,
                      tx_type := "deposit", status := "confirmed" }] :=
  (c2_notify_never_writes_balance "0xdep" chainEvUserA "0xabc" db1).2 (by decide)
